import Mathlib

/-!
Shallow embedding of the pricing core of
`src/restaurant-system/microservices/pricing-service/main.py`.

Conventions of the embedding:
* Python `float` arithmetic is idealized as exact rational arithmetic (`ℚ`);
  the numeric literals of the source (`0.0875`, `3.99`, `1.15`, ...) appear as
  the corresponding rationals.
* Python `round(x, 2)` rounds half to even; `roundTo2` below is that rounding
  on `ℚ`.
* The ambient clock read `datetime.now().hour` inside
  `calculate_dynamic_pricing` is modeled as an explicit `current_hour : Nat`
  argument (the only effect the function performs besides the fact fetches,
  whose results are likewise explicit arguments here).
* Python dict lookups (`menu_items.get`, `inventory_items.get`) are modeled as
  functions into `Option`.
* `item.get("unit_price", 0)` / `item.get("quantity", 1)` on the loosely typed
  line-item dicts are modeled by `Option` fields with `getD` defaults.
-/

namespace PricingService

/-- Rounding half to even of a rational to an integer, the rounding used by
Python `round`. -/
def roundHalfEven (q : ℚ) : ℤ :=
  if q - ⌊q⌋ < 1/2 then ⌊q⌋
  else if (1:ℚ)/2 < q - ⌊q⌋ then ⌊q⌋ + 1
  else if ⌊q⌋ % 2 = 0 then ⌊q⌋ else ⌊q⌋ + 1

/-- Python `round(x, 2)`: round to 2 fractional digits, half to even. -/
def roundTo2 (q : ℚ) : ℚ := (roundHalfEven (q * 100) : ℚ) / 100

/-- Menu item record fetched from the external catalog
(`id,name,price,category_id,is_available`). -/
structure MenuItemFact where
  id : Int
  name : String
  price : ℚ
  category_id : Int
  is_available : Bool
  deriving Repr, DecidableEq

/-- Inventory record fetched from the external catalog
(`menu_item_id,current_stock,minimum_stock`). -/
structure InventoryFact where
  menu_item_id : Int
  current_stock : Int
  minimum_stock : Int
  deriving Repr, DecidableEq

/-- The `PricingResponse` pydantic model. -/
structure PricingResponse where
  item_id : Int
  original_price : ℚ
  dynamic_price : ℚ
  discount_percentage : Option ℚ
  surge_multiplier : Option ℚ
  reason : String
  deriving Repr, DecidableEq

/-- The four mutable locals of the per-item loop body of
`calculate_dynamic_pricing`. -/
structure ItemVars where
  dynamic_price : ℚ
  reason : String
  discount_percentage : Option ℚ
  surge_multiplier : Option ℚ
  deriving Repr, DecidableEq

/-- Loop body of `PricingEngine.calculate_dynamic_pricing` for one `item_id`
whose menu fact is present.  `inventory_item` is `inventory_items.get(item_id)`
and `current_hour` is the value of `datetime.now().hour` at the call.
`not surge_multiplier` in the source is `surge_multiplier is None` here: the
only values ever assigned to it (1.15, 1.25, 1.10) are truthy. -/
def priceOne (item_id : Int) (menu_item : MenuItemFact)
    (inventory_item : Option InventoryFact) (current_hour : Nat) :
    PricingResponse :=
  let original_price := menu_item.price
  let s : ItemVars := ⟨original_price, "Base price", none, none⟩
  -- Apply inventory-based pricing
  let s : ItemVars :=
    match inventory_item with
    | none => s
    | some inv =>
      if inv.current_stock ≤ inv.minimum_stock * 2 then
        ⟨original_price * (23/20), "Low inventory surge pricing", none, some (23/20)⟩
      else if inv.current_stock ≤ inv.minimum_stock then
        ⟨original_price * (5/4), "Critical inventory surge pricing", none, some (5/4)⟩
      else s
  -- Apply time-based pricing
  let s : ItemVars :=
    if 14 ≤ current_hour ∧ current_hour ≤ 17 ∧ s.surge_multiplier = none then
      ⟨original_price * (1 - 1/10), "Happy hour discount", some (1/10), s.surge_multiplier⟩
    else if 18 ≤ current_hour ∧ current_hour ≤ 20 ∧ s.surge_multiplier = none then
      ⟨original_price * (11/10), "Peak hour surge pricing", s.discount_percentage, some (11/10)⟩
    else if 21 ≤ current_hour ∧ s.surge_multiplier = none then
      ⟨original_price * (1 - 3/20), "Late night discount", some (3/20), s.surge_multiplier⟩
    else s
  ⟨item_id, original_price, roundTo2 s.dynamic_price,
    s.discount_percentage, s.surge_multiplier, s.reason⟩

/-- `PricingEngine.calculate_dynamic_pricing`: iterate over `item_ids`,
`continue` on a missing menu fact, otherwise append the priced item. -/
def calculate_dynamic_pricing (item_ids : List Int)
    (menu_items : Int → Option MenuItemFact)
    (inventory_items : Int → Option InventoryFact)
    (current_hour : Nat) : List PricingResponse :=
  match item_ids with
  | [] => []
  | item_id :: rest =>
    match menu_items item_id with
    | none => calculate_dynamic_pricing rest menu_items inventory_items current_hour
    | some menu_item =>
      priceOne item_id menu_item (inventory_items item_id) current_hour ::
        calculate_dynamic_pricing rest menu_items inventory_items current_hour

/-- The `type` discriminant of a hardcoded promo definition. -/
inductive PromoKind where
  | percentage
  | fixed
  | free_delivery
  deriving Repr, DecidableEq

/-- One row of the hardcoded `promo_codes` table inside
`PricingEngine.apply_promo_code`. -/
structure PromoDef where
  kind : PromoKind
  value : ℚ
  min_order : ℚ
  deriving Repr, DecidableEq

/-- Python `str.upper()` restricted to ASCII, which is all the source ever
feeds it (promo codes). -/
def upperAscii (s : String) : String := ⟨s.data.map Char.toUpper⟩

/-- The hardcoded promo table, as the lookup `promo_codes.get`. -/
def promo_codes (c : String) : Option PromoDef :=
  if c = "WELCOME10" then some ⟨.percentage, 1/10, 15⟩
  else if c = "SAVE5" then some ⟨.fixed, 5, 20⟩
  else if c = "FREESHIP" then some ⟨.free_delivery, 399/100, 0⟩
  else none

/-- An applied-discount dict. `type` is `"free_delivery"` or `"promo_code"`;
only promo entries carry a `code`. -/
structure DiscountEntry where
  type : String
  code : Option String
  description : String
  amount : ℚ
  deriving Repr, DecidableEq

/-- Description string of a percentage promo:
`f"{int(promo['value'] * 100)}% off your order"`.  Truncation toward zero of
the (idealized, exact) product is `Rat.floor` on the nonnegative values the
table holds. -/
def pct_description (value : ℚ) : String :=
  toString ⌊value * 100⌋ ++ "% off your order"

/-- Description string of a fixed promo: `f"${promo['value']} off your order"`.
Python renders the float `5.00` as `"5.0"`; the idealization renders the
rational instead, which no claim inspects. -/
def fixed_description (value : ℚ) : String :=
  "$" ++ toString value ++ " off your order"

/-- `PricingEngine.apply_promo_code`.  Note the source handles only the
`percentage` and `fixed` kinds and falls through to `return None` for
`free_delivery`. -/
def apply_promo_code (promo_code : String) (subtotal : ℚ) : Option DiscountEntry :=
  match promo_codes (upperAscii promo_code) with
  | none => none
  | some promo =>
    if subtotal < promo.min_order then none
    else
      match promo.kind with
      | .percentage =>
        some ⟨"promo_code", some promo_code, pct_description promo.value,
          subtotal * promo.value⟩
      | .fixed =>
        some ⟨"promo_code", some promo_code, fixed_description promo.value,
          promo.value⟩
      | .free_delivery => none

/-- One element of `OrderCalculationRequest.items`, a loosely typed dict read
with `item.get("unit_price", 0)` and `item.get("quantity", 1)`. -/
structure LineItem where
  unit_price : Option ℚ
  quantity : Option Int
  deriving Repr, DecidableEq

/-- The environment-sourced constants of `PricingEngine.__init__`, at their
defaults `TAX_RATE=0.0875`, `DELIVERY_FEE=3.99`, `FREE_DELIVERY_MINIMUM=25.00`. -/
structure EngineConfig where
  base_tax_rate : ℚ
  base_delivery_fee : ℚ
  free_delivery_minimum : ℚ
  deriving Repr, DecidableEq

/-- The default engine configuration. -/
def defaultConfig : EngineConfig := ⟨7/80, 399/100, 25⟩

/-- The `OrderCalculationRequest` pydantic model (customer_id is unused by the
computation and omitted). -/
structure OrderCalculationRequest where
  items : List LineItem
  order_type : String
  promo_code : Option String
  deriving Repr, DecidableEq

/-- The `OrderCalculationResponse` pydantic model. -/
structure OrderCalculationResponse where
  subtotal : ℚ
  tax_amount : ℚ
  delivery_fee : ℚ
  discount_amount : ℚ
  total_amount : ℚ
  applied_discounts : List DiscountEntry
  deriving Repr, DecidableEq

/-- One line item's contribution to the subtotal:
`float(item.get("unit_price", 0)) * int(item.get("quantity", 1))`. -/
def line_total (item : LineItem) : ℚ :=
  item.unit_price.getD 0 * ((item.quantity.getD 1 : Int) : ℚ)

/-- The subtotal accumulation loop of `calculate_order_total`. -/
def order_subtotal (items : List LineItem) : ℚ :=
  items.foldl (fun acc item => acc + line_total item) 0

/-- Description of the informational free-delivery entry:
`f"Free delivery on orders over ${self.free_delivery_minimum}"`. -/
def free_delivery_description (minimum : ℚ) : String :=
  "Free delivery on orders over $" ++ toString minimum

/-- The delivery-fee block of `calculate_order_total`: final `delivery_fee`
and the discount entries appended by it. -/
def delivery_fee_and_entries (cfg : EngineConfig) (order_type : String)
    (subtotal : ℚ) : ℚ × List DiscountEntry :=
  if order_type = "delivery" then
    if subtotal < cfg.free_delivery_minimum then (cfg.base_delivery_fee, [])
    else (0, [⟨"free_delivery", none,
      free_delivery_description cfg.free_delivery_minimum,
      cfg.base_delivery_fee⟩])
  else (0, [])

/-- The promo block of `calculate_order_total`: `apply_promo_code` when a code
is present. -/
def promo_discount (promo_code : Option String) (subtotal : ℚ) :
    Option DiscountEntry :=
  promo_code.bind (fun c => apply_promo_code c subtotal)

/-- `discount_amount` after the promo block: `0.0` when no discount resolved,
else `discount_info["amount"]`. -/
def discount_amount_val (discount_info : Option DiscountEntry) : ℚ :=
  match discount_info with
  | none => 0
  | some d => d.amount

/-- `PricingEngine.calculate_order_total`. -/
def calculate_order_total (cfg : EngineConfig)
    (request : OrderCalculationRequest) : OrderCalculationResponse :=
  let subtotal := order_subtotal request.items
  let fee_entries := delivery_fee_and_entries cfg request.order_type subtotal
  let delivery_fee := fee_entries.1
  let discount_info := promo_discount request.promo_code subtotal
  let discount_amount := discount_amount_val discount_info
  let applied_discounts := fee_entries.2 ++ discount_info.toList
  let taxable_amount := max 0 (subtotal - discount_amount)
  let tax_amount := taxable_amount * cfg.base_tax_rate
  let total_amount := subtotal + tax_amount + delivery_fee - discount_amount
  ⟨roundTo2 subtotal, roundTo2 tax_amount, roundTo2 delivery_fee,
    roundTo2 discount_amount, roundTo2 total_amount, applied_discounts⟩

/-- Evaluation of the promo table at `"WELCOME10"`. -/
theorem promo_codes_WELCOME10 :
    promo_codes "WELCOME10" = some ⟨.percentage, 1/10, 15⟩ := rfl

/-- Evaluation of the promo table at `"SAVE5"`. -/
theorem promo_codes_SAVE5 :
    promo_codes "SAVE5" = some ⟨.fixed, 5, 20⟩ := rfl

/-- Evaluation of the promo table at `"FREESHIP"`. -/
theorem promo_codes_FREESHIP :
    promo_codes "FREESHIP" = some ⟨.free_delivery, 399/100, 0⟩ := rfl

/-- Half-to-even rounding never goes below the floor. -/
theorem floor_le_roundHalfEven (q : ℚ) : ⌊q⌋ ≤ roundHalfEven q := by
  unfold roundHalfEven
  split_ifs <;> omega

/-- Half-to-even rounding never exceeds the floor plus one. -/
theorem roundHalfEven_le_floor_add_one (q : ℚ) : roundHalfEven q ≤ ⌊q⌋ + 1 := by
  unfold roundHalfEven
  split_ifs <;> omega

/-- Half-to-even rounding is monotone. -/
theorem roundHalfEven_mono {q r : ℚ} (h : q ≤ r) :
    roundHalfEven q ≤ roundHalfEven r := by
  have hf : ⌊q⌋ ≤ ⌊r⌋ := Int.floor_le_floor h
  rcases eq_or_lt_of_le hf with heq | hlt
  · unfold roundHalfEven
    rw [← heq]
    split_ifs <;> try omega
    all_goals exfalso
    all_goals linarith
  · have h1 := roundHalfEven_le_floor_add_one q
    have h2 := floor_le_roundHalfEven r
    omega

/-- Rounding to two digits is monotone. -/
theorem roundTo2_mono {q r : ℚ} (h : q ≤ r) : roundTo2 q ≤ roundTo2 r := by
  unfold roundTo2
  have h100 : q * 100 ≤ r * 100 := by nlinarith
  have := roundHalfEven_mono h100
  have hcast : ((roundHalfEven (q * 100) : ℚ)) ≤ ((roundHalfEven (r * 100) : ℚ)) := by
    exact_mod_cast this
  linarith

/-- Rounding to two digits fixes zero. -/
theorem roundTo2_zero : roundTo2 0 = 0 := by
  norm_num [roundTo2, roundHalfEven]

/-- Every discount entry `apply_promo_code` returns is a promo-code entry. -/
theorem apply_promo_code_type {c : String} {s : ℚ} {e : DiscountEntry}
    (h : apply_promo_code c s = some e) : e.type = "promo_code" := by
  unfold apply_promo_code at h
  cases hp : promo_codes (upperAscii c) with
  | none => rw [hp] at h; exact absurd h (by simp)
  | some p =>
    rw [hp] at h
    simp only at h
    split_ifs at h
    cases hk : p.kind <;> rw [hk] at h
    · simp only [Option.some.injEq] at h; exact h ▸ rfl
    · simp only [Option.some.injEq] at h; exact h ▸ rfl
    · exact absurd h (by simp)

/-- A resolved promo discount never exceeds the subtotal it was resolved
against: the percentage code takes a tenth of a subtotal of at least 15, and
the fixed code takes 5 from a subtotal of at least 20. -/
theorem apply_promo_code_amount_le {c : String} {s : ℚ} {e : DiscountEntry}
    (h : apply_promo_code c s = some e) : e.amount ≤ s := by
  unfold apply_promo_code promo_codes at h
  split_ifs at h
  · simp only at h
    split_ifs at h with hlt
    simp only [Option.some.injEq] at h
    subst h
    simp only
    nlinarith [not_lt.mp hlt]
  · simp only at h
    split_ifs at h with hlt
    simp only [Option.some.injEq] at h
    subst h
    simp only
    linarith [not_lt.mp hlt]
  · simp only at h
    split_ifs at h

/-- No inventory-based surge applies to an item: either no inventory fact
exists, or the stock clears both thresholds of the source's if/elif chain. -/
def noInventorySurge : Option InventoryFact → Prop
  | none => True
  | some f =>
    ¬(f.current_stock ≤ f.minimum_stock * 2) ∧ ¬(f.current_stock ≤ f.minimum_stock)

/-- The subtotal loop over a cons adds the head's line total. -/
theorem order_subtotal_cons (it : LineItem) (items : List LineItem) :
    order_subtotal (it :: items) = line_total it + order_subtotal items := by
  have key : ∀ (l : List LineItem) (a : ℚ),
      List.foldl (fun acc x => acc + line_total x) a l =
        a + List.foldl (fun acc x => acc + line_total x) 0 l := by
    intro l
    induction l with
    | nil => intro a; simp
    | cons x xs ih =>
      intro a
      simp only [List.foldl_cons]
      rw [ih (a + line_total x), ih (0 + line_total x)]
      ring
  unfold order_subtotal
  simp only [List.foldl_cons]
  rw [key items (0 + line_total it)]
  ring

/-- C1: the claim says an item with `currentStock ≤ minimumStock` is priced at
`round(originalPrice × 1.25, 2)` with reason "Critical inventory surge
pricing".  Evaluating the code at stock 5 against minimum 10 on a $10.00 item:
the `current_stock <= minimum_stock * 2` branch is tested first and also
covers critically low stock, so the item is priced ×1.15 with the
low-inventory reason and the critical branch never fires. -/
theorem C1_critical_branch_shadowed :
    priceOne 1 ⟨1, "Margherita", 10, 1, true⟩ (some ⟨1, 5, 10⟩) 9 =
      ⟨1, 10, 23/2, none, some (23/20), "Low inventory surge pricing"⟩ ∧
    (priceOne 1 ⟨1, "Margherita", 10, 1, true⟩ (some ⟨1, 5, 10⟩) 9).dynamic_price ≠
      roundTo2 (10 * (5/4)) ∧
    (priceOne 1 ⟨1, "Margherita", 10, 1, true⟩ (some ⟨1, 5, 10⟩) 9).reason ≠
      "Critical inventory surge pricing" := by
  refine ⟨?_, ?_, ?_⟩
  · norm_num [priceOne, roundTo2, roundHalfEven, Int.fract]
  · norm_num [priceOne, roundTo2, roundHalfEven, Int.fract]
  · decide

/-- C6: with no applicable inventory surge, the time-of-day table applies:
hours 14–17 discount by 0.10, hours 18–20 surge ×1.10, hours ≥ 21 discount by
0.15, and any earlier hour leaves the base price with reason "Base price". -/
theorem C6_time_of_day_table (item_id : Int) (m : MenuItemFact)
    (inv : Option InventoryFact) (hour : Nat) (hinv : noInventorySurge inv) :
    (14 ≤ hour ∧ hour ≤ 17 → priceOne item_id m inv hour =
      ⟨item_id, m.price, roundTo2 (m.price * (1 - 1/10)), some (1/10), none,
        "Happy hour discount"⟩) ∧
    (18 ≤ hour ∧ hour ≤ 20 → priceOne item_id m inv hour =
      ⟨item_id, m.price, roundTo2 (m.price * (11/10)), none, some (11/10),
        "Peak hour surge pricing"⟩) ∧
    (21 ≤ hour → priceOne item_id m inv hour =
      ⟨item_id, m.price, roundTo2 (m.price * (1 - 3/20)), some (3/20), none,
        "Late night discount"⟩) ∧
    (hour < 14 → priceOne item_id m inv hour =
      ⟨item_id, m.price, roundTo2 m.price, none, none, "Base price"⟩) := by
  cases inv with
  | none =>
    refine ⟨fun hh => ?_, fun hh => ?_, fun hh => ?_, fun hh => ?_⟩
    · simp [priceOne, hh.1, hh.2]
    · have h17 : ¬(hour ≤ 17) := by omega
      simp [priceOne, hh.1, hh.2, h17]
    · have h17 : ¬(hour ≤ 17) := by omega
      have h20 : ¬(hour ≤ 20) := by omega
      simp [priceOne, hh, h17, h20]
    · have h14 : ¬(14 ≤ hour) := by omega
      have h18 : ¬(18 ≤ hour) := by omega
      have h21 : ¬(21 ≤ hour) := by omega
      simp [priceOne, h14, h18, h21]
  | some f =>
    obtain ⟨hf1, hf2⟩ := hinv
    refine ⟨fun hh => ?_, fun hh => ?_, fun hh => ?_, fun hh => ?_⟩
    · simp [priceOne, hh.1, hh.2, hf1, hf2]
    · have h17 : ¬(hour ≤ 17) := by omega
      simp [priceOne, hh.1, hh.2, h17, hf1, hf2]
    · have h17 : ¬(hour ≤ 17) := by omega
      have h20 : ¬(hour ≤ 20) := by omega
      simp [priceOne, hh, h17, h20, hf1, hf2]
    · have h14 : ¬(14 ≤ hour) := by omega
      have h18 : ¬(18 ≤ hour) := by omega
      have h21 : ¬(21 ≤ hour) := by omega
      simp [priceOne, h14, h18, h21, hf1, hf2]

/-- C6 witness: a $10.00 item with no inventory fact evaluates to 9.00 at hour
15, 11.00 at hour 19, 8.50 at hour 22, and 10.00 with "Base price" at hour 9. -/
theorem C6_time_of_day_table_witness :
    priceOne 1 ⟨1, "item", 10, 1, true⟩ none 15 =
      ⟨1, 10, 9, some (1/10), none, "Happy hour discount"⟩ ∧
    priceOne 1 ⟨1, "item", 10, 1, true⟩ none 19 =
      ⟨1, 10, 11, none, some (11/10), "Peak hour surge pricing"⟩ ∧
    priceOne 1 ⟨1, "item", 10, 1, true⟩ none 22 =
      ⟨1, 10, 17/2, some (3/20), none, "Late night discount"⟩ ∧
    priceOne 1 ⟨1, "item", 10, 1, true⟩ none 9 =
      ⟨1, 10, 10, none, none, "Base price"⟩ := by
  have h15 := C6_time_of_day_table 1 ⟨1, "item", 10, 1, true⟩ none 15 trivial
  have h19 := C6_time_of_day_table 1 ⟨1, "item", 10, 1, true⟩ none 19 trivial
  have h22 := C6_time_of_day_table 1 ⟨1, "item", 10, 1, true⟩ none 22 trivial
  have h9 := C6_time_of_day_table 1 ⟨1, "item", 10, 1, true⟩ none 9 trivial
  refine ⟨?_, ?_, ?_, ?_⟩
  · rw [h15.1 ⟨by norm_num, by norm_num⟩]
    norm_num [roundTo2, roundHalfEven, Int.fract]
  · rw [h19.2.1 ⟨by norm_num, by norm_num⟩]
    norm_num [roundTo2, roundHalfEven, Int.fract]
  · rw [h22.2.2.1 (by norm_num)]
    norm_num [roundTo2, roundHalfEven, Int.fract]
  · rw [h9.2.2.2 (by norm_num)]
    norm_num [roundTo2, roundHalfEven, Int.fract]

/-- C8: the hour the source reads from the ambient system clock
(`datetime.now().hour`, an implicit input modeled explicitly here) genuinely
changes the output: two calls with identical item ids, menu facts and
inventory facts differ between clock hours 13 and 19. -/
theorem C8_ambient_hour_changes_output :
    calculate_dynamic_pricing [1]
        (fun i => if i = 1 then some ⟨1, "item", 10, 1, true⟩ else none)
        (fun _ => none) 13 ≠
      calculate_dynamic_pricing [1]
        (fun i => if i = 1 then some ⟨1, "item", 10, 1, true⟩ else none)
        (fun _ => none) 19 := by
  norm_num [calculate_dynamic_pricing, priceOne, roundTo2, roundHalfEven, Int.fract]

/-- C9: ids without a menu fact are silently dropped: the output's item ids
are exactly the input ids having a menu fact, in order (so no error value and
no placeholder entry exists for a missing id), and the empty id list yields
the empty output. -/
theorem C9_missing_ids_dropped (item_ids : List Int)
    (menu_items : Int → Option MenuItemFact)
    (inventory_items : Int → Option InventoryFact) (current_hour : Nat) :
    (calculate_dynamic_pricing item_ids menu_items inventory_items
        current_hour).map PricingResponse.item_id =
      item_ids.filter (fun i => (menu_items i).isSome) ∧
    calculate_dynamic_pricing [] menu_items inventory_items current_hour = [] := by
  constructor
  · induction item_ids with
    | nil => rfl
    | cons i rest ih =>
      cases hm : menu_items i with
      | none => simp [calculate_dynamic_pricing, hm, ih]
      | some m => simp [calculate_dynamic_pricing, hm, ih, priceOne]
  · rfl

/-- C2 counterexample: the claim says the free-delivery code "FREESHIP"
(minimum order 0.00) resolves to a discount entry of amount 3.99 at any
eligible subtotal; at subtotal 10.00 the code is in the table and eligible,
yet `apply_promo_code` returns nothing, because only the percentage and fixed
kinds are handled before the final `return None`. -/
theorem C2_counterexample :
    apply_promo_code "FREESHIP" 10 = none ∧
    promo_codes (upperAscii "FREESHIP") = some ⟨.free_delivery, 399/100, 0⟩ ∧
    ¬((10:ℚ) < 0) := by
  refine ⟨?_, rfl, by norm_num⟩
  have h : upperAscii "FREESHIP" = "FREESHIP" := by decide
  rw [apply_promo_code, h, promo_codes_FREESHIP]
  norm_num

/-- C2 amended: for every code whose table entry has kind `free_delivery` and
every subtotal, `apply_promo_code` returns nothing: the resolver handles only
the percentage and fixed kinds and falls through to `None`, so the hardcoded
FREESHIP row can never produce a discount entry. -/
theorem C2_amended_free_delivery_resolves_to_none (c : String) (s : ℚ)
    (p : PromoDef) (hp : promo_codes (upperAscii c) = some p)
    (hk : p.kind = .free_delivery) : apply_promo_code c s = none := by
  rw [apply_promo_code, hp]
  simp only
  split_ifs with hlt
  · rfl
  · rw [hk]

/-- C2 witness: the amended theorem applied to "FREESHIP" at subtotal 50.00. -/
theorem C2_amended_free_delivery_resolves_to_none_witness :
    apply_promo_code "FREESHIP" 50 = none :=
  C2_amended_free_delivery_resolves_to_none "FREESHIP" 50
    ⟨.free_delivery, 399/100, 0⟩ rfl rfl

/-- C7 counterexample: the claim says `apply_promo_code` returns nothing
exactly when the code is unknown or the subtotal is below the matched
definition's minimum order.  The lowercase code "freeship" matches the table
(case-insensitively) with minimum order 0.00, and subtotal 50.00 is not below
it, yet the resolver returns nothing. -/
theorem C7_counterexample :
    apply_promo_code "freeship" 50 = none ∧
    promo_codes (upperAscii "freeship") = some ⟨.free_delivery, 399/100, 0⟩ ∧
    ¬((50:ℚ) < 0) := by
  refine ⟨?_, rfl, by norm_num⟩
  have h : upperAscii "freeship" = "FREESHIP" := by decide
  rw [apply_promo_code, h, promo_codes_FREESHIP]
  norm_num

/-- C7 amended: resolution is case-insensitive — two codes with the same
uppercasing resolve to entries with the same amount (and the same presence) —
and `apply_promo_code` returns nothing exactly when the code is unknown, the
subtotal is below the matched definition's minimum order, or the matched
definition has kind `free_delivery` (the unhandled kind). -/
theorem C7_amended_resolution (c c₂ : String) (s : ℚ)
    (hcc : upperAscii c = upperAscii c₂) :
    (apply_promo_code c s = none ↔
      promo_codes (upperAscii c) = none ∨
        ∃ p, promo_codes (upperAscii c) = some p ∧
          (s < p.min_order ∨ p.kind = PromoKind.free_delivery)) ∧
    Option.map DiscountEntry.amount (apply_promo_code c s) =
      Option.map DiscountEntry.amount (apply_promo_code c₂ s) := by
  constructor
  · rw [apply_promo_code]
    cases hp : promo_codes (upperAscii c) with
    | none => simp
    | some p =>
      simp only [Option.some.injEq, false_or]
      split_ifs with hlt
      · simp only [true_iff]
        exact Or.inr ⟨p, rfl, Or.inl hlt⟩
      · cases hk : p.kind
        · simp [hk, hlt]
        · simp [hk, hlt]
        · simp only [true_iff]
          exact Or.inr ⟨p, rfl, Or.inr hk⟩
  · rw [apply_promo_code, apply_promo_code, hcc]
    cases hp : promo_codes (upperAscii c₂) with
    | none => rfl
    | some p =>
      simp only
      split_ifs with hlt
      · rfl
      · cases hk : p.kind <;> simp [hk]

/-- C7 witness: the amended theorem applied to "welcome10" against
"WELCOME10" at subtotal 20.00. -/
theorem C7_amended_resolution_witness :
    Option.map DiscountEntry.amount (apply_promo_code "welcome10" 20) =
      Option.map DiscountEntry.amount (apply_promo_code "WELCOME10" 20) :=
  (C7_amended_resolution "welcome10" "WELCOME10" 20 (by decide)).2

/-- The promo block only ever appends promo-code entries. -/
theorem promo_discount_type {pc : Option String} {s : ℚ} {e : DiscountEntry}
    (h : promo_discount pc s = some e) : e.type = "promo_code" := by
  cases pc with
  | none => exact absurd h (by simp [promo_discount])
  | some c =>
    exact apply_promo_code_type (by simpa [promo_discount] using h)

/-- No free-delivery entry ever comes from the promo block. -/
theorem promo_discount_no_free_delivery_entries (pc : Option String) (s : ℚ) :
    ((promo_discount pc s).toList.filter
      (fun e => e.type == "free_delivery")) = [] := by
  cases hd : promo_discount pc s with
  | none => rfl
  | some e =>
    have ht := promo_discount_type hd
    simp [List.filter, ht]

/-- C3: the order totals are the claimed formulas over unrounded
intermediates — `taxableAmount = max(0, subtotal − discountAmount)`,
`taxAmount = taxableAmount × taxRate`,
`totalAmount = subtotal + taxAmount + deliveryFee − discountAmount` — with
each of the five numeric outputs rounded to two digits only at the end. -/
theorem C3_totals_formula (cfg : EngineConfig) (req : OrderCalculationRequest) :
    (calculate_order_total cfg req).subtotal =
      roundTo2 (order_subtotal req.items) ∧
    (calculate_order_total cfg req).discount_amount =
      roundTo2 (discount_amount_val
        (promo_discount req.promo_code (order_subtotal req.items))) ∧
    (calculate_order_total cfg req).delivery_fee =
      roundTo2 (delivery_fee_and_entries cfg req.order_type
        (order_subtotal req.items)).1 ∧
    (calculate_order_total cfg req).tax_amount =
      roundTo2 (max 0 (order_subtotal req.items -
          discount_amount_val
            (promo_discount req.promo_code (order_subtotal req.items))) *
        cfg.base_tax_rate) ∧
    (calculate_order_total cfg req).total_amount =
      roundTo2 (order_subtotal req.items +
        max 0 (order_subtotal req.items -
            discount_amount_val
              (promo_discount req.promo_code (order_subtotal req.items))) *
          cfg.base_tax_rate +
        (delivery_fee_and_entries cfg req.order_type
          (order_subtotal req.items)).1 -
        discount_amount_val
          (promo_discount req.promo_code (order_subtotal req.items))) :=
  ⟨rfl, rfl, rfl, rfl, rfl⟩

/-- C4: for a delivery order below the free-delivery minimum the delivery fee
is the base fee; at or above the minimum the fee is zero, exactly one
informational free-delivery entry (amount = base fee) is appended, and the
discount amount still comes from the promo block alone; for any other order
type the fee is zero and no free-delivery entry exists. -/
theorem C4_delivery_fee_rule (cfg : EngineConfig)
    (req : OrderCalculationRequest) :
    (req.order_type = "delivery" →
      (order_subtotal req.items < cfg.free_delivery_minimum →
        (calculate_order_total cfg req).delivery_fee =
          roundTo2 cfg.base_delivery_fee) ∧
      (¬ order_subtotal req.items < cfg.free_delivery_minimum →
        (calculate_order_total cfg req).delivery_fee = 0 ∧
        ((calculate_order_total cfg req).applied_discounts.filter
            (fun e => e.type == "free_delivery")) =
          [⟨"free_delivery", none,
            free_delivery_description cfg.free_delivery_minimum,
            cfg.base_delivery_fee⟩] ∧
        (calculate_order_total cfg req).discount_amount =
          roundTo2 (discount_amount_val
            (promo_discount req.promo_code (order_subtotal req.items))))) ∧
    (req.order_type ≠ "delivery" →
      (calculate_order_total cfg req).delivery_fee = 0 ∧
      ((calculate_order_total cfg req).applied_discounts.filter
          (fun e => e.type == "free_delivery")) = []) := by
  constructor
  · intro hdel
    constructor
    · intro hlt
      simp [calculate_order_total, delivery_fee_and_entries, hdel, hlt]
    · intro hlt
      refine ⟨?_, ?_, rfl⟩
      · simp [calculate_order_total, delivery_fee_and_entries, hdel, hlt,
          roundTo2_zero]
      · simp [calculate_order_total, delivery_fee_and_entries, hdel, hlt,
          List.filter_append, promo_discount_no_free_delivery_entries]
  · intro hdel
    constructor
    · simp [calculate_order_total, delivery_fee_and_entries, hdel,
        roundTo2_zero]
    · simp [calculate_order_total, delivery_fee_and_entries, hdel,
        List.filter_append, promo_discount_no_free_delivery_entries]

/-- C4 witness: at the default configuration, a $30.00 delivery order gets no
fee and the informational entry; a $20.00 delivery order pays the base fee;
a $30.00 pickup order gets no fee and no entry. -/
theorem C4_delivery_fee_rule_witness :
    (calculate_order_total defaultConfig
        ⟨[⟨some 30, some 1⟩], "delivery", none⟩).delivery_fee = 0 ∧
    ((calculate_order_total defaultConfig
        ⟨[⟨some 30, some 1⟩], "delivery", none⟩).applied_discounts.filter
          (fun e => e.type == "free_delivery")) =
      [⟨"free_delivery", none, free_delivery_description 25, 399/100⟩] ∧
    (calculate_order_total defaultConfig
        ⟨[⟨some 20, some 1⟩], "delivery", none⟩).delivery_fee =
      roundTo2 (399/100) ∧
    (calculate_order_total defaultConfig
        ⟨[⟨some 30, some 1⟩], "pickup", none⟩).delivery_fee = 0 ∧
    ((calculate_order_total defaultConfig
        ⟨[⟨some 30, some 1⟩], "pickup", none⟩).applied_discounts.filter
          (fun e => e.type == "free_delivery")) = [] := by
  have h30 := C4_delivery_fee_rule defaultConfig
    ⟨[⟨some 30, some 1⟩], "delivery", none⟩
  have h20 := C4_delivery_fee_rule defaultConfig
    ⟨[⟨some 20, some 1⟩], "delivery", none⟩
  have hpk := C4_delivery_fee_rule defaultConfig
    ⟨[⟨some 30, some 1⟩], "pickup", none⟩
  have hs30 : ¬ order_subtotal [(⟨some 30, some 1⟩ : LineItem)] <
      defaultConfig.free_delivery_minimum := by
    norm_num [order_subtotal, line_total, defaultConfig]
  have hs20 : order_subtotal [(⟨some 20, some 1⟩ : LineItem)] <
      defaultConfig.free_delivery_minimum := by
    norm_num [order_subtotal, line_total, defaultConfig]
  obtain ⟨ha, hb, -⟩ := (h30.1 rfl).2 hs30
  refine ⟨ha, ?_, (h20.1 rfl).1 hs20, (hpk.2 (by simp)).1, (hpk.2 (by simp)).2⟩
  simpa [defaultConfig] using hb

/-- C5 counterexample: the claim extends the invariant
`discountAmount ≤ subtotal` to orders with negative quantities or prices; a
pickup order holding one line of unit price −10.00 has subtotal −10.00 and
discount 0, and 0 ≤ −10 fails. -/
theorem C5_counterexample :
    ¬ ((calculate_order_total defaultConfig
          ⟨[⟨some (-10), some 1⟩], "pickup", none⟩).discount_amount ≤
        (calculate_order_total defaultConfig
          ⟨[⟨some (-10), some 1⟩], "pickup", none⟩).subtotal) := by
  have hsub : order_subtotal [(⟨some (-10), some 1⟩ : LineItem)] = -10 := by
    norm_num [order_subtotal, line_total]
  show ¬ (roundTo2 (discount_amount_val (promo_discount none
      (order_subtotal [(⟨some (-10), some 1⟩ : LineItem)]))) ≤
    roundTo2 (order_subtotal [(⟨some (-10), some 1⟩ : LineItem)]))
  rw [hsub]
  norm_num [promo_discount, discount_amount_val, roundTo2, roundHalfEven,
    Int.fract]

/-- C5 amended: for every configuration and every order request whose
(unrounded) subtotal is nonnegative, the produced totals satisfy
`discountAmount ≤ subtotal`. -/
theorem C5_amended_discount_le_subtotal (cfg : EngineConfig)
    (req : OrderCalculationRequest) (h : 0 ≤ order_subtotal req.items) :
    (calculate_order_total cfg req).discount_amount ≤
      (calculate_order_total cfg req).subtotal := by
  have hd : discount_amount_val
      (promo_discount req.promo_code (order_subtotal req.items)) ≤
      order_subtotal req.items := by
    cases hp : promo_discount req.promo_code (order_subtotal req.items) with
    | none => simpa [discount_amount_val] using h
    | some e =>
      have he : e.amount ≤ order_subtotal req.items := by
        cases pc : req.promo_code with
        | none => rw [pc] at hp; exact absurd hp (by simp [promo_discount])
        | some c =>
          rw [pc] at hp
          exact apply_promo_code_amount_le (by simpa [promo_discount] using hp)
      simpa [discount_amount_val] using he
  show roundTo2 (discount_amount_val
      (promo_discount req.promo_code (order_subtotal req.items))) ≤
    roundTo2 (order_subtotal req.items)
  exact roundTo2_mono hd

/-- C5 witness: the amended invariant at the default configuration on a
$20.00 delivery order using the SAVE5 code. -/
theorem C5_amended_discount_le_subtotal_witness :
    (calculate_order_total defaultConfig
        ⟨[⟨some 20, some 1⟩], "delivery", some "SAVE5"⟩).discount_amount ≤
      (calculate_order_total defaultConfig
        ⟨[⟨some 20, some 1⟩], "delivery", some "SAVE5"⟩).subtotal :=
  C5_amended_discount_le_subtotal defaultConfig _
    (by norm_num [order_subtotal, line_total])

/-- C10: a line item that omits `unit_price` contributes as if it were 0, one
that omits `quantity` contributes as if it were 1, and every line item is
summed into the subtotal rather than rejected. -/
theorem C10_missing_fields_default (p : Option ℚ) (q : Option Int)
    (it : LineItem) (items : List LineItem) :
    line_total ⟨none, q⟩ = line_total ⟨some 0, q⟩ ∧
    line_total ⟨p, none⟩ = line_total ⟨p, some 1⟩ ∧
    order_subtotal (it :: items) = line_total it + order_subtotal items := by
  refine ⟨?_, ?_, order_subtotal_cons it items⟩ <;> simp [line_total]

end PricingService

